import Mathlib

/-!
Verification of the QA-validated research pipeline.

This file gives a shallow embedding, in Lean 4, of the quality-gating core of
the repository: the keyword extractor, the URL relevance filter, the reasoning
quality scorer and the source-partitioning orchestrator of
`src/qa_validator.py`, together with the tool-level response handling of
`src/research_tools.py` and the stage functions of `src/research_agent.py`
that the claims refer to.

Modelling conventions:
* Python strings are `List Char` (`Str`); `str.lower`, `str.split`,
  `str.strip`, substring tests (`in`), `str.find` and `str.count` are embedded
  as executable functions on `List Char`.
* Python floats are modelled as exact rationals `ℚ`; all scoring arithmetic
  is over `ℚ`.
* Fallible external capabilities (the LLM generation call, the JSON parse of
  its response, a validator run inside a `try` block) are passed in as
  `Except`-valued parameters; the embedded stage functions mirror the
  `try`/`except` branches of the source.
-/

/-- A Python string, embedded as its list of characters. -/
abbrev Str := List Char

/-- Coerce a Lean string literal to the embedding type. -/
def str (s : String) : Str := s.data

/-- Python `str.lower()` (ASCII, which is all the source's data uses). -/
def lowerStr (s : Str) : Str := s.map Char.toLower

/-- Whitespace, as recognized by Python `str.split()` with no argument. -/
def isWs (c : Char) : Bool := c = ' ' ∨ c = '\t' ∨ c = '\n' ∨ c = '\r'

/-- Python `str.split()` with no argument: split on whitespace runs,
dropping empty pieces. -/
def splitWs (s : Str) : List Str := (s.splitOnP isWs).filter (· ≠ [])

/-- The punctuation characters stripped by `w.strip('.,!?;:')` in
`_extract_keywords`. -/
def isPunct (c : Char) : Bool := c ∈ ['.', ',', '!', '?', ';', ':']

/-- Python `w.strip('.,!?;:')`: drop those characters from both ends. -/
def stripPunct (s : Str) : Str :=
  ((s.dropWhile isPunct).reverse.dropWhile isPunct).reverse

/-- Does pattern `p` occur in `t` starting at index `i`? -/
def matchAt (t p : Str) (i : Nat) : Bool := (t.drop i).take p.length = p

/-- Python `t.find(p)` restricted to the found case: index of the leftmost
occurrence of `p` in `t`, if any. -/
def findSub (t p : Str) : Option Nat :=
  (List.range (t.length + 1)).find? (fun i => matchAt t p i)

/-- Python `p in t` (substring containment). -/
def containsSub (t p : Str) : Bool := (findSub t p).isSome

/-- Helper for `countOcc`, with explicit fuel (each step consumes at least one
character of `t`, so `t.length` fuel suffices). -/
def countOccGo (p : Str) : Nat → Str → Nat
  | 0, _ => 0
  | fuel + 1, t =>
    match findSub t p with
    | none => 0
    | some i => 1 + countOccGo p fuel (t.drop (i + p.length))

/-- Python `t.count(p)`: number of non-overlapping occurrences of `p` in `t`,
scanning left to right. -/
def countOcc (t p : Str) : Nat :=
  if p = [] then t.length + 1 else countOccGo p t.length t

example : lowerStr (str "AbC xY.") = str "abc xy." := by decide
example : splitWs (str "  the. a..  b ") = [str "the.", str "a..", str "b"] := by decide
example : stripPunct (str ".,ab!c:;") = str "ab!c" := by decide
example : findSub (str "xyzab") (str "ab") = some 3 := by decide
example : findSub (str "xyzab") (str "q") = none := by decide
example : countOcc (str "ababa") (str "aba") = 1 := by decide
example : countOcc (str "maybe maybe") (str "maybe") = 2 := by decide

/-! ## URL parsing (`urllib.parse.urlparse(url).netloc`) -/

/-- Characters allowed in a URL scheme. -/
def isSchemeChar (c : Char) : Bool := c.isAlpha ∨ c.isDigit ∨ c = '+' ∨ c = '-' ∨ c = '.'

/-- Drop a leading `scheme:` from a URL, when present (the scheme is a
non-empty run of scheme characters starting with a letter, ended by `:`). -/
def dropScheme (url : Str) : Str :=
  let pre := url.takeWhile (fun c => c ≠ ':')
  if pre.length < url.length ∧ pre ≠ [] ∧ (pre.headD ' ').isAlpha ∧ pre.all isSchemeChar
  then url.drop (pre.length + 1) else url

/-- Model of `urlparse(url).netloc`: the authority component, present exactly when the
remainder after the scheme starts with `//`; it extends to the next
`/`, `?` or `#`. -/
def netloc (url : Str) : Str :=
  let rest := dropScheme url
  if rest.take 2 = ['/', '/'] then
    (rest.drop 2).takeWhile (fun c => c ≠ '/' ∧ c ≠ '?' ∧ c ≠ '#')
  else []

example : netloc (str "http://example.com/page?q=1") = str "example.com" := by decide
example : netloc (str "https://www.facebook.com/p") = str "www.facebook.com" := by decide
example : netloc (str "example.com/page") = str "" := by decide
example : netloc (str "") = str "" := by decide

/-! ## `src/qa_validator.py`: `URLRelevanceValidator` -/

/-- The `stop_words` set of `URLRelevanceValidator._extract_keywords`. -/
def stop_words : List Str :=
  [str "the", str "a", str "an", str "and", str "or", str "is", str "are",
   str "to", str "in", str "on", str "of", str "for", str "with", str "by",
   str "this", str "that"]

/-- Embedding of `URLRelevanceValidator._extract_keywords`: lower-case the query, split on
whitespace, keep the words that are not stop-words and have length `> 2`
(both tests on the unstripped word), and strip `'.,!?;:'` from each kept
word. -/
def extract_keywords (query : Str) : List Str :=
  (splitWs (lowerStr query)).filterMap fun w =>
    if lowerStr w ∉ stop_words ∧ w.length > 2 then some (stripPunct w) else none

example : extract_keywords (str "The quantum computing, trends!") =
    [str "quantum", str "computing", str "trends"] := by decide
example : extract_keywords (str "the a an to") = [] := by decide
example : extract_keywords (str "the.") = [str "the"] := by decide
example : extract_keywords (str "a..") = [str "a"] := by decide

/-- The rejection / acceptance reason strings of `validate_source`,
with their data. -/
inductive VReason where
  | notCredible (domain : Str)
  | noKeywords (missing : List Str)
  | lowMatch (found total : Nat)
  | relevant
deriving DecidableEq

/-- A source record, as produced by the search stage and enriched by the
pipeline: the `title`/`url`/`summary` dict of `search_web`, the optional
`content` added by `fetch_content_node`, and the annotations written by
`QAValidator.validate_sources`. -/
structure Source where
  title : Str
  url : Str
  summary : Str
  content : Option Str := none
  relevance_score : Option ℚ := none
  rejection_reason : Option VReason := none
deriving DecidableEq

/-- The `bad_patterns` blacklist of `URLRelevanceValidator._is_credible_domain`. -/
def bad_patterns : List Str :=
  [str "facebook", str "instagram", str "twitter", str "pinterest",
   str "tiktok", str "reddit.com/r/"]

/-- Embedding of `URLRelevanceValidator._is_credible_domain`: an empty domain is not
credible; a domain containing a blacklisted substring is not credible;
every other domain is credible. -/
def is_credible_domain (domain : Str) : Bool :=
  if domain = [] then false
  else if bad_patterns.any (fun bad => containsSub domain bad) then false
  else true

/-- The `domain` computed at the top of `validate_source`:
`urlparse(url).netloc.lower() if url else ''`, where `url` is the already
lower-cased source URL. -/
def source_domain (s : Source) : Str :=
  let url := lowerStr s.url
  if url ≠ [] then lowerStr (netloc url) else []

/-- The `text_to_check` of `validate_source`: lower-cased title, a space,
lower-cased summary. -/
def search_text (s : Source) : Str := lowerStr s.title ++ [' '] ++ lowerStr s.summary

/-- The `keyword_matches` count of `validate_source`: how many of the extracted
keywords occur as substrings of `text_to_check`. -/
def keyword_matches (kws : List Str) (s : Source) : Nat :=
  (kws.filter (fun kw => containsSub (search_text s) kw)).length

/-- The `relevance_score` of `validate_source`: neutral `0.5` when there are
no keywords, else `min(1.0, matches / max(len(keywords) * 0.5, 1))`. -/
def relevance_score (kws : List Str) (s : Source) : ℚ :=
  if kws.length = 0 then 1/2
  else min 1 ((keyword_matches kws s : ℚ) / max ((kws.length : ℚ) * (1/2)) 1)

/-- Embedding of `URLRelevanceValidator.validate_source`, for a validator constructed with
keyword list `kws`: returns `(is_valid, confidence_score, reason)`. -/
def validate_source (kws : List Str) (s : Source) : Bool × ℚ × VReason :=
  let domain := source_domain s
  if is_credible_domain domain = false then
    (false, 0, VReason.notCredible domain)
  else
    let m := keyword_matches kws s
    let score := relevance_score kws s
    if m = 0 then (false, score, VReason.noKeywords (kws.take 3))
    else if score < 1/5 then (true, score, VReason.lowMatch m kws.length)
    else (true, score, VReason.relevant)

example :
    validate_source (extract_keywords (str "quantum computing trends"))
      { title := str "Quantum computing", url := str "http://www.facebook.com/q",
        summary := str "trends" } =
    (false, 0, VReason.notCredible (str "www.facebook.com")) := rfl
example :
    validate_source (extract_keywords (str "the"))
      { title := str "anything", url := str "http://example.com", summary := str "" } =
    (false, 1/2, VReason.noKeywords []) := rfl

/-! ## `src/qa_validator.py`: `QAValidator.validate_sources` -/

/-- One line of the validation report built by `QAValidator.validate_sources`:
the success/failure prefix, the 1-based source index, the source title, the
reason, and (on success lines only) the formatted score. -/
structure ReportLine where
  accepted : Bool
  index : Nat
  title : Str
  reason : VReason
  score : Option ℚ
deriving DecidableEq

/-- Recursive worker for `validate_sources`; `i` is the 0-based index of the
first source of `rest` within the original list (the report prefixes use
`i + 1`). -/
def validate_sources_go (kws : List Str) (i : Nat) :
    List Source → List Source × List Source × List ReportLine
  | [] => ([], [], [])
  | s :: rest =>
    let r := validate_source kws s
    let t := validate_sources_go kws (i + 1) rest
    if r.1 then
      ({ s with relevance_score := some r.2.1 } :: t.1, t.2.1,
       { accepted := true, index := i + 1, title := s.title,
         reason := r.2.2, score := some r.2.1 } :: t.2.2)
    else
      (t.1, { s with rejection_reason := some r.2.2 } :: t.2.1,
       { accepted := false, index := i + 1, title := s.title,
         reason := r.2.2, score := none } :: t.2.2)

/-- Embedding of `QAValidator.validate_sources`: iterate over the sources in order, run the
URL relevance validator on each, partition into
`(valid_sources, rejected_sources, reasons)`, annotating accepted sources
with `relevance_score` and rejected ones with `rejection_reason`, and emit
one report line per source. The rejection reason annotation is modelled by
the structured `VReason` rather than its rendered string. -/
def validate_sources (kws : List Str) (sources : List Source) :
    List Source × List Source × List ReportLine :=
  validate_sources_go kws 0 sources

/-! ## `src/qa_validator.py`: `ReasoningValidator` -/

/-- Is `c` an ASCII digit (`\d` of the citation regex)? -/
def isDigitCh (c : Char) : Bool := '0' ≤ c ∧ c ≤ '9'

/-- Is `c` whitespace (`\s` of the citation regex)? -/
def isWsRe (c : Char) : Bool := isWs c ∨ c = '\x0b' ∨ c = '\x0c'

/-- Match the citation regex alternative `openC Source \s* \d+ closeC`
(case-insensitively in `Source`) against the front of `s`; return the length
of the match. -/
def matchCiteBracket (openC closeC : Char) (s : Str) : Option Nat :=
  match s with
  | [] => none
  | c :: rest =>
    if c = openC ∧ lowerStr (rest.take 6) = str "source" ∧ 6 ≤ rest.length then
      let rest2 := rest.drop 6
      let ws := (rest2.takeWhile isWsRe).length
      let rest3 := rest2.drop ws
      let digits := (rest3.takeWhile isDigitCh).length
      if digits = 0 then none
      else
        match rest3.drop digits with
        | c2 :: _ => if c2 = closeC then some (1 + 6 + ws + digits + 1) else none
        | [] => none
    else none

/-- Match `\[Source\s*\d+\]|\(Source\s*\d+\)` (IGNORECASE) at the front of
`t.drop i`: try the bracket alternative first, then the parenthesis one. -/
def matchCite (t : Str) (i : Nat) : Option Nat :=
  match matchCiteBracket '[' ']' (t.drop i) with
  | some n => some n
  | none => matchCiteBracket '(' ')' (t.drop i)

/-- Fuel-driven scan for `re.findall`: count non-overlapping citation
matches left to right starting at position `i`. -/
def countCitesGo (t : Str) : Nat → Nat → Nat
  | 0, _ => 0
  | fuel + 1, i =>
    if t.length ≤ i then 0
    else
      match matchCite t i with
      | some n => 1 + countCitesGo t fuel (i + n)
      | none => countCitesGo t fuel (i + 1)

/-- Embedding of `ReasoningValidator._count_source_citations`: the number of
`re.findall(r'\[Source\s*\d+\]|\(Source\s*\d+\)', text, re.IGNORECASE)`
matches. -/
def count_source_citations (t : Str) : Nat := countCitesGo t t.length 0

example : count_source_citations (str "see [Source 1] and (source2).") = 2 := by decide
example : count_source_citations (str "see [Source] and (Source x)") = 0 := by decide
example : count_source_citations [] = 0 := rfl

/-- The `shallow_phrases` list of `validate_reasoning`, check 3. -/
def shallow_phrases : List Str :=
  [str "it seems", str "maybe", str "probably", str "might be", str "could be",
   str "apparently", str "i think", str "in my opinion", str "one could argue"]

/-- The total count of hedging phrases in the lower-cased findings
(`sum(findings.lower().count(phrase) for phrase in shallow_phrases)`). -/
def shallow_count (findings : Str) : Nat :=
  (shallow_phrases.map (fun p => countOcc (lowerStr findings) p)).sum

/-- The `contradictions` antonym-pair list of
`ReasoningValidator._has_contradictions`. -/
def contradiction_pairs : List (Str × Str) :=
  [(str "yes", str "no"), (str "true", str "false"),
   (str "proven", str "unproven"), (str "exists", str "does not exist"),
   (str "found", str "not found")]

/-- Embedding of `ReasoningValidator._has_contradictions`: for each antonym pair, if both
members occur in the lower-cased text, compare the indices of the *first*
occurrence of each (`str.find`); report a contradiction when those are less
than 200 characters apart. -/
def has_contradictions (t : Str) : Bool :=
  let tl := lowerStr t
  contradiction_pairs.any fun pr =>
    if containsSub tl pr.1 ∧ containsSub tl pr.2 then
      decide (Nat.dist ((findSub tl pr.1).getD 0) ((findSub tl pr.2).getD 0) < 200)
    else false

example : has_contradictions (str "Yes, but also no.") = true := by decide
example : has_contradictions (str "all results agree") = false := by decide

/-- The structure markers of `validate_reasoning`, check 5 (matched against
the original, non-lower-cased findings). -/
def structure_markers : List Str :=
  [str "##", str "###", str "**Key", str "1.", str "-"]

/-- Check 5: some structure marker occurs in the findings. -/
def has_structure (findings : Str) : Bool :=
  structure_markers.any fun m => containsSub findings m

/-- The conclusion phrases of `validate_reasoning`, check 6 (matched against
the lower-cased findings). -/
def conclusion_phrases : List Str :=
  [str "conclusion", str "summary", str "overall", str "in summary",
   str "in conclusion"]

/-- Check 6: some conclusion phrase occurs in the lower-cased findings. -/
def has_conclusion (findings : Str) : Bool :=
  conclusion_phrases.any fun p => containsSub (lowerStr findings) p

/-- The issue strings appended by `validate_reasoning`, with their data. -/
inductive Issue where
  | tooBrief
  | noCitations
  | lowCitationRate (cited total : Nat)
  | vague (count : Nat)
  | contradictions
  | noStructure
  | noConclusion
deriving DecidableEq

/-- Embedding of `ReasoningValidator.validate_reasoning`: starting from `issues = []` and
`score = 1.0`, run the six checks in order, each appending its issue and
subtracting its fixed penalty when it fires; clamp the score to `[0, 1]`;
`is_valid` is `score >= 0.5 and len(issues) <= 2`. Returns
`(is_valid, quality_score, issues)`. -/
def validate_reasoning (findings : Str) (sources : List Source) :
    Bool × ℚ × List Issue :=
  let s0 : List Issue × ℚ := ([], 1)
  let s1 := if findings.length < 200 then (s0.1 ++ [Issue.tooBrief], s0.2 - 3/10) else s0
  let cites := count_source_citations findings
  let s2 :=
    if cites = 0 then (s1.1 ++ [Issue.noCitations], s1.2 - 4/10)
    else if (cites : ℚ) < (sources.length : ℚ) * (3/10) then
      (s1.1 ++ [Issue.lowCitationRate cites sources.length], s1.2 - 2/10)
    else s1
  let shallow := shallow_count findings
  let s3 := if 3 < shallow then (s2.1 ++ [Issue.vague shallow], s2.2 - 2/10) else s2
  let s4 := if has_contradictions findings then (s3.1 ++ [Issue.contradictions], s3.2 - 1/4) else s3
  let s5 := if has_structure findings then s4 else (s4.1 ++ [Issue.noStructure], s4.2 - 3/20)
  let s6 := if has_conclusion findings then s5 else (s5.1 ++ [Issue.noConclusion], s5.2 - 1/10)
  let score := max 0 (min 1 s6.2)
  (decide (1/2 ≤ score) && decide (s6.1.length ≤ 2), score, s6.1)

/-- The `findings_qa` dict built by `QAValidator.validate_findings` (the
`message` entry is derived from `is_valid` and `issues` and is not modelled
separately). -/
structure FindingsQA where
  is_valid : Bool
  quality_score : ℚ
  issues : List Issue
deriving DecidableEq

/-- Embedding of `QAValidator.validate_findings`: delegate to
`ReasoningValidator.validate_reasoning`. -/
def validate_findings (findings : Str) (sources : List Source) : FindingsQA :=
  let r := validate_reasoning findings sources
  { is_valid := r.1, quality_score := r.2.1, issues := r.2.2 }

/-! ## `src/research_tools.py`: `ResearchTools` -/

/-- A parsed JSON value, as returned by `json.loads` on the generation
response (only the shapes the search stage inspects are distinguished). -/
inductive JValue where
  | jstr (s : Str)
  | jnum (n : Int)
  | jbool (b : Bool)
  | jnull
  | jlist (items : List JValue)
  | jdict (fields : List (Str × JValue))

/-- Python `d.get(key, default)` on a JSON object. -/
def jgetD (fields : List (Str × JValue)) (key : Str) (dflt : JValue) : JValue :=
  match fields.find? (fun kv => kv.1 = key) with
  | some kv => kv.2
  | none => dflt

/-- Python `key in d` on a JSON object. -/
def jhas (fields : List (Str × JValue)) (key : Str) : Bool :=
  (fields.find? (fun kv => kv.1 = key)).isSome

/-- Does a JSON value look like a single search-result dict
(`isinstance(results[0], dict) and any(k in results[0] for k in
('title', 'url', 'summary'))`)? -/
def looksLikeResult : JValue → Bool
  | JValue.jdict fields =>
      jhas fields (str "title") ∨ jhas fields (str "url") ∨ jhas fields (str "summary")
  | _ => false

/-- Embedding of `ResearchTools.search_web`, from the point where the generation response
has been cleaned and handed to `json.loads`. The argument is the outcome of
the parse: `Except.error` is the `json.JSONDecodeError` branch, which
returns the empty result list; on success the three recognized response
shapes are handled as in lines 85-99 of `research_tools.py`. The returned
`JValue` is the `parsed_results` value (a list in every reachable case,
represented as `JValue.jlist`). -/
def search_web (parsed : Except Str JValue) : JValue :=
  match parsed with
  | Except.error _ => JValue.jlist []
  | Except.ok results =>
    match results with
    | JValue.jdict fields => jgetD fields (str "results") (JValue.jlist [])
    | JValue.jlist items =>
      if !items.isEmpty && looksLikeResult (items.headD JValue.jnull) then
        JValue.jlist items
      else if (items.length == 1) &&
          (match items.headD JValue.jnull with
           | JValue.jdict fields => jhas fields (str "results")
           | _ => false) then
        match items.headD JValue.jnull with
        | JValue.jdict fields => jgetD fields (str "results") (JValue.jlist [])
        | _ => JValue.jlist items
      else JValue.jlist items
    | _ => JValue.jlist []

/-- The fixed findings text returned by `ResearchTools.analyze_sources` when
the source list is empty. -/
def no_sources_text : Str :=
  str "No sources available to analyze. The web search returned no results."

/-- The `SOURCE i+1` block of the analysis prompt: title, URL, and
`content` falling back to `summary`. -/
def source_block (i : Nat) (s : Source) : Str :=
  str "SOURCE " ++ str (toString (i + 1)) ++ str ": " ++ s.title ++
  str " URL: " ++ s.url ++ str " CONTENT: " ++ (s.content.getD s.summary)

/-- The analysis prompt of `analyze_sources`: the research question, the
optional framework section, and one block per source (the fixed instruction
text is irrelevant to every claim and elided). -/
def analysis_prompt (sources : List Source) (question fw : Str) : Str :=
  question ++ fw ++
  ((sources.enum.map fun si => source_block si.1 si.2).foldl (· ++ ·) [])

/-- Embedding of `ResearchTools.analyze_sources`. The generation capability is a function
from the prompt to `Except`: `Except.error` models `self.llm.generate`
raising, which the surrounding `try`/`except` converts to the
`"Error during analysis: ..."` string (the exception rendering
`type(e).__name__: e` is modelled by the carried string). The second
component counts how many times the generation capability was invoked. -/
def analyze_sources (sources : List Source) (question fw : Str)
    (llm : Str → Except Str Str) : Str × Nat :=
  if sources = [] then (no_sources_text, 0)
  else
    match llm (analysis_prompt sources question fw) with
    | Except.ok analysis => (analysis, 1)
    | Except.error e => (str "Error during analysis: " ++ e, 1)

/-! ## `src/research_agent.py`: stage functions -/

/-- The `status` values written by the pipeline stages. -/
inductive Status where
  | initializing | framework_loaded | framework_not_found | framework_error
  | search_complete | search_error | content_fetched
  | qa_validated | qa_validation_error
  | analysis_complete | analysis_error
  | complete | error
deriving DecidableEq

/-- One entry of the `qa_validation_details` list: either a rendered report
line from `validate_sources`, or the `"Validation error: ..."` note of the
exception branch of `qa_validate_node`. -/
inductive QALine where
  | line (r : ReportLine)
  | validationError (e : Str)
deriving DecidableEq

/-- The partial-state patch a LangGraph node returns: every field is
optional; `none` means the field is absent from the returned dict and the
corresponding state field is left untouched. -/
structure Patch where
  framework_loaded : Option Bool := none
  framework_content : Option Str := none
  search_results : Option (List Source) := none
  sources_with_content : Option (List Source) := none
  rejected_sources : Option (List Source) := none
  qa_validation_details : Option (List QALine) := none
  research_findings : Option Str := none
  findings_qa : Option FindingsQA := none
  status : Option Status := none
  error_message : Option Str := none
  output_path : Option Str := none

/-- Embedding of `ResearchAgent.qa_validate_node`. The `validation` argument is the
outcome of the `try` block (constructing `QAValidator(query)` and running
`validate_sources(sources)`): `Except.ok` carries the
`(valid_sources, rejected_sources, reasons)` triple and yields the
`qa_validated` patch; `Except.error` is the `except` branch, which passes
the original sources through with a `Validation error` note and the
`qa_validation_error` status — and sets no `error_message` and no
`rejected_sources`. -/
def qa_validate_node (sources : List Source)
    (validation : Except Str (List Source × List Source × List ReportLine)) : Patch :=
  match validation with
  | Except.ok t =>
      { sources_with_content := some t.1,
        rejected_sources := some t.2.1,
        qa_validation_details := some (t.2.2.map QALine.line),
        status := some Status.qa_validated }
  | Except.error e =>
      { sources_with_content := some sources,
        qa_validation_details := some [QALine.validationError e],
        status := some Status.qa_validation_error }

/-- Embedding of `ResearchAgent.analyze_node`. Within the embedding the only fallible step
of the node body is the generation call, and `analyze_sources` already
converts its failure to an ordinary string result, so the node body is total
and the node always takes the `try` branch: it stores the findings string,
runs `validate_findings` over it, and reports `analysis_complete` with no
`error_message`. -/
def analyze_node (sources : List Source) (query fw : Str)
    (llm : Str → Except Str Str) : Patch :=
  let findings := (analyze_sources sources query fw llm).1
  let fqa := validate_findings findings sources
  { research_findings := some findings,
    findings_qa := some fqa,
    status := some Status.analysis_complete }

/-- The `except` branch of `ResearchAgent.analyze_node` (lines 261-267),
kept for reference: it is the only writer of `Status.analysis_error`, and
within the embedding it is unreachable from a generation failure because
`analyze_sources` catches that failure itself. -/
def analyze_node_on_exception (e : Str) : Patch :=
  { research_findings := some (str "Error during analysis: " ++ e),
    status := some Status.analysis_error,
    error_message := some e }

/-! ## Helper lemmas -/

/-- Characterization of `is_credible_domain = false`: the domain is empty or
contains a blacklisted substring. -/
theorem is_credible_domain_false_iff (d : Str) :
    is_credible_domain d = false ↔
      d = [] ∨ ∃ b ∈ bad_patterns, containsSub d b = true := by
  unfold is_credible_domain
  split_ifs with h1 h2 <;> simp_all [List.any_eq_true]

/-- A concrete source on an allowed domain, used by witnesses. -/
def neutral_source : Source :=
  { title := str "anything", url := str "http://example.com", summary := str "" }

/-- A concrete source on a blacklisted domain whose title and summary match
the query keywords, used by witnesses. -/
def fb_source : Source :=
  { title := str "Facebook research hub", url := str "https://www.facebook.com/p",
    summary := str "facebook research" }

/-! ## Claims -/

/-- Claim C1, counterexample: for the all-stop-word query `"the"` the
extracted keyword set is empty and `neutral_source` has a non-empty,
non-blacklisted domain, yet `validate_source` returns `accepted = false`
(with score `0.5`), where the claim requires `accepted = true`. -/
theorem C1_counterexample :
    extract_keywords (str "the") = [] ∧
    source_domain neutral_source ≠ [] ∧
    is_credible_domain (source_domain neutral_source) = true ∧
    (validate_source (extract_keywords (str "the")) neutral_source).1 = false ∧
    (validate_source (extract_keywords (str "the")) neutral_source).2.1 = 1/2 :=
  ⟨by decide, by decide, by decide, rfl, rfl⟩

/-- Claim C1 (amended): for every source whose domain is non-empty and not
blacklisted, if the extracted keyword set of the query is empty then
`validate_source` computes the neutral score `0.5` but returns
`accepted = false` (the zero-match rejection fires first, with an empty
missing-keyword list). -/
theorem C1_amended (query : Str) (s : Source)
    (hcred : is_credible_domain (source_domain s) = true)
    (hk : extract_keywords query = []) :
    validate_source (extract_keywords query) s =
      (false, 1/2, VReason.noKeywords []) := by
  rw [hk]
  unfold validate_source
  simp [hcred, keyword_matches, relevance_score]

/-- Witness for `C1_amended` at the concrete query `"the"` and source
`neutral_source`. -/
theorem C1_amended_witness :
    validate_source (extract_keywords (str "the")) neutral_source =
      (false, 1/2, VReason.noKeywords []) :=
  C1_amended (str "the") neutral_source (by decide) (by decide)

/-- Claim C3, counterexample: when the protected region of the QA-validation
stage raises, the returned patch carries the error status but leaves
`error_message` unset, where the claim requires every failing stage to set
both `status` and `error_message`. -/
theorem C3_counterexample :
    (qa_validate_node [] (Except.error (str "boom"))).status =
      some Status.qa_validation_error ∧
    (qa_validate_node [] (Except.error (str "boom"))).error_message = none :=
  ⟨rfl, rfl⟩

/-- Claim C3 (amended): the QA-validation stage catches an exception from its
protected region and converts it to a patch — original sources passed
through, a `Validation error` detail line, and `status =
qa_validation_error` — so the pipeline continues; but that patch sets no
`error_message` (and no `rejected_sources`). -/
theorem C3_amended (sources : List Source) (e : Str) :
    qa_validate_node sources (Except.error e) =
      { sources_with_content := some sources,
        qa_validation_details := some [QALine.validationError e],
        status := some Status.qa_validation_error } :=
  rfl

/-- Claim C7, counterexample: on the query `"the. a.."` the keyword extractor
emits the stop-word `"the"` and the length-1 token `"a"`, because the
stop-word and length filters are applied before punctuation stripping. -/
theorem C7_counterexample :
    extract_keywords (str "the. a..") = [str "the", str "a"] ∧
    str "the" ∈ stop_words ∧ ¬ ((str "a").length > 2) :=
  ⟨by decide, by decide, by decide⟩

/-- Claim C7 (amended): the keyword extractor is a pure function returning,
in input order, the punctuation-stripped forms of exactly those
whitespace-tokens of the lower-cased query that (before stripping) are not
stop-words and have length greater than 2; after stripping a token may be
short or a stop-word. -/
theorem C7_amended (query : Str) :
    extract_keywords query =
      ((splitWs (lowerStr query)).filter
        (fun w => decide (lowerStr w ∉ stop_words ∧ w.length > 2))).map stripPunct ∧
    ∀ w ∈ extract_keywords query, ∃ w₀ ∈ splitWs (lowerStr query),
      w = stripPunct w₀ ∧ lowerStr w₀ ∉ stop_words ∧ w₀.length > 2 := by
  have key : ∀ l : List Str,
      l.filterMap (fun w =>
        if lowerStr w ∉ stop_words ∧ w.length > 2 then some (stripPunct w) else none) =
      (l.filter (fun w => decide (lowerStr w ∉ stop_words ∧ w.length > 2))).map stripPunct := by
    intro l
    induction l with
    | nil => rfl
    | cons a l ih =>
      by_cases h : lowerStr a ∉ stop_words ∧ a.length > 2 <;>
        simp [List.filterMap_cons, List.filter_cons, h, ih]
  refine ⟨key _, ?_⟩
  intro w hw
  rw [extract_keywords, key] at hw
  obtain ⟨w₀, hw₀, hstrip⟩ := List.mem_map.mp hw
  obtain ⟨hmem, hcond⟩ := List.mem_filter.mp hw₀
  exact ⟨w₀, hmem, hstrip.symm, of_decide_eq_true hcond⟩

/-- Witness for `C7_amended`: the output token `"the"` of the query `"the."`
arises as the stripped form of the token `"the."`. -/
theorem C7_amended_witness :
    ∃ w₀ ∈ splitWs (lowerStr (str "the.")), str "the" = stripPunct w₀ ∧
      lowerStr w₀ ∉ stop_words ∧ w₀.length > 2 :=
  (C7_amended (str "the.")).2 (str "the") (by decide)

/-- Claim C8: a source whose URL has an empty domain, or whose domain
contains a blacklisted substring, is rejected with score exactly `0.0`
whatever the keyword list. -/
theorem C8_blacklist_hard_reject (kws : List Str) (s : Source)
    (h : source_domain s = [] ∨
         ∃ b ∈ bad_patterns, containsSub (source_domain s) b = true) :
    validate_source kws s = (false, 0, VReason.notCredible (source_domain s)) := by
  have hc : is_credible_domain (source_domain s) = false :=
    (is_credible_domain_false_iff _).mpr h
  unfold validate_source
  simp [hc]

/-- Witness for `C8_blacklist_hard_reject`: a facebook-domain source is
rejected with score `0` even though every keyword matches its text. -/
theorem C8_witness :
    validate_source [str "facebook"] fb_source =
      (false, 0, VReason.notCredible (source_domain fb_source)) :=
  C8_blacklist_hard_reject [str "facebook"] fb_source (Or.inr (by decide))

/-- Claim C9: a JSON parse failure makes `search_web` return the empty result
list rather than raising, and with zero surviving sources `analyze_sources`
returns the fixed no-sources text with zero invocations of the generation
capability. -/
theorem C9_degraded_empty_paths :
    (∀ e, search_web (Except.error e) = JValue.jlist []) ∧
    (∀ question fw llm, analyze_sources [] question fw llm = (no_sources_text, 0)) :=
  ⟨fun _ => rfl, fun _ _ _ => rfl⟩

/-- Claim C10: when the generation capability raises during synthesis,
`analyze_sources` catches the exception and returns the error-description
string as the findings text; `analyze_node` then stores that string as
`research_findings`, validates it, and reports `status =
analysis_complete` with `error_message` unset. -/
theorem C10_generation_failure_masked (sources : List Source) (query fw e : Str)
    (h : sources ≠ []) :
    analyze_node sources query fw (fun _ => Except.error e) =
      { research_findings := some (str "Error during analysis: " ++ e),
        findings_qa := some (validate_findings (str "Error during analysis: " ++ e) sources),
        status := some Status.analysis_complete } ∧
    (analyze_node sources query fw (fun _ => Except.error e)).error_message = none ∧
    (analyze_node sources query fw (fun _ => Except.error e)).status ≠
      some Status.analysis_error := by
  unfold analyze_node analyze_sources
  simp [h]

/-- Witness for `C10_generation_failure_masked` at a one-source list. -/
theorem C10_witness :
    analyze_node [neutral_source] (str "q") [] (fun _ => Except.error (str "boom")) =
      { research_findings := some (str "Error during analysis: " ++ str "boom"),
        findings_qa := some (validate_findings
          (str "Error during analysis: " ++ str "boom") [neutral_source]),
        status := some Status.analysis_complete } ∧
    (analyze_node [neutral_source] (str "q") []
      (fun _ => Except.error (str "boom"))).error_message = none ∧
    (analyze_node [neutral_source] (str "q") []
      (fun _ => Except.error (str "boom"))).status ≠ some Status.analysis_error :=
  C10_generation_failure_masked [neutral_source] (str "q") [] (str "boom") (by decide)

/-- Induction workhorse for claim C2: the partition invariants of
`validate_sources_go`, for an arbitrary starting index. -/
theorem validate_sources_go_spec (kws : List Str) (sources : List Source) :
    ∀ i : Nat,
      (validate_sources_go kws i sources).1.length +
        (validate_sources_go kws i sources).2.1.length = sources.length ∧
      ((validate_sources_go kws i sources).1.map Source.url ++
        (validate_sources_go kws i sources).2.1.map Source.url).Perm
          (sources.map Source.url) ∧
      ((validate_sources_go kws i sources).1.map Source.url).Sublist
        (sources.map Source.url) ∧
      ((validate_sources_go kws i sources).2.1.map Source.url).Sublist
        (sources.map Source.url) ∧
      (validate_sources_go kws i sources).2.2.length = sources.length ∧
      (validate_sources_go kws i sources).2.2.map ReportLine.index =
        List.range' (i + 1) sources.length := by
  induction sources with
  | nil => intro i; simp [validate_sources_go]
  | cons s rest ih =>
    intro i
    obtain ⟨h1, h2, h3, h4, h5, h6⟩ := ih (i + 1)
    by_cases hv : (validate_source kws s).1
    · simp only [validate_sources_go, hv, if_true, List.map_cons, List.cons_append,
        List.length_cons, List.range'_succ, List.map]
      exact ⟨by omega, h2.cons s.url, h3.cons₂ s.url, h4.cons s.url, by omega,
        by rw [h6]⟩
    · simp only [validate_sources_go, hv, if_false, Bool.false_eq_true,
        List.map_cons, List.length_cons, List.range'_succ, List.map]
      refine ⟨by omega, ?_, h3.cons s.url, h4.cons₂ s.url, by omega, by rw [h6]⟩
      exact List.perm_middle.trans (h2.cons s.url)

/-- Claim C2: `validate_sources` partitions its input — the accepted and
rejected counts sum to the input count, the URLs of accepted plus rejected
are a permutation of the input URLs (no source lost or duplicated), each
part preserves the input's relative order, and the report has exactly one
line per input source, carrying the 1-based input positions in input
order. -/
theorem C2_partition (kws : List Str) (sources : List Source) :
    (validate_sources kws sources).1.length +
      (validate_sources kws sources).2.1.length = sources.length ∧
    ((validate_sources kws sources).1.map Source.url ++
      (validate_sources kws sources).2.1.map Source.url).Perm
        (sources.map Source.url) ∧
    ((validate_sources kws sources).1.map Source.url).Sublist
      (sources.map Source.url) ∧
    ((validate_sources kws sources).2.1.map Source.url).Sublist
      (sources.map Source.url) ∧
    (validate_sources kws sources).2.2.length = sources.length ∧
    (validate_sources kws sources).2.2.map ReportLine.index =
      List.range' 1 sources.length :=
  validate_sources_go_spec kws sources 0

/-- The counterexample text for claim C6: the second occurrence of `"no"` is
3 characters from `"yes"`, but the first occurrences of `"no"` and `"yes"`
are 226 characters apart. -/
def cx_text : Str := str "no" ++ List.replicate 220 'x' ++ str " no yes"

set_option maxRecDepth 8000 in
/-- Claim C6, counterexample: `cx_text` contains occurrences of both members
of the antonym pair `(yes, no)` within 200 characters of each other
(`"no"` at index 223, `"yes"` at index 226), yet `_has_contradictions`
reports no contradiction, because it only compares the *first* occurrence
of each member (`str.find`), and those are 226 apart. -/
theorem C6_counterexample :
    (str "yes", str "no") ∈ contradiction_pairs ∧
    matchAt (lowerStr cx_text) (str "no") 223 = true ∧
    matchAt (lowerStr cx_text) (str "yes") 226 = true ∧
    Nat.dist 226 223 < 200 ∧
    has_contradictions cx_text = false :=
  ⟨by decide, by decide, by decide, by decide, by decide⟩

/-- Pointwise form of one antonym-pair check in `_has_contradictions`. -/
theorem contradiction_check_iff (tl : Str) (pr : Str × Str) :
    ((if containsSub tl pr.1 ∧ containsSub tl pr.2 then
        decide (Nat.dist ((findSub tl pr.1).getD 0) ((findSub tl pr.2).getD 0) < 200)
      else false) = true) ↔
      ∃ i j, findSub tl pr.1 = some i ∧ findSub tl pr.2 = some j ∧
        Nat.dist i j < 200 := by
  split
  · rename_i h
    obtain ⟨h1, h2⟩ := h
    rw [containsSub] at h1 h2
    obtain ⟨i, hi⟩ := Option.isSome_iff_exists.mp h1
    obtain ⟨j, hj⟩ := Option.isSome_iff_exists.mp h2
    simp [hi, hj]
  · rename_i h
    simp only [Bool.false_eq_true, false_iff]
    rintro ⟨i, j, hi, hj, -⟩
    exact h ⟨by rw [containsSub, hi]; rfl, by rw [containsSub, hj]; rfl⟩

/-- Claim C6 (amended): the contradiction deduction fires if and only if, for
some antonym pair of the fixed set, both members occur in the lower-cased
findings and the index of the *first* occurrence of one is within 200
characters (strictly) of the index of the *first* occurrence of the other;
pairs whose only nearby occurrences are later ones do not fire. -/
theorem C6_amended (t : Str) :
    has_contradictions t = true ↔
      ∃ pr ∈ contradiction_pairs, ∃ i j,
        findSub (lowerStr t) pr.1 = some i ∧ findSub (lowerStr t) pr.2 = some j ∧
        Nat.dist i j < 200 := by
  unfold has_contradictions
  rw [List.any_eq_true]
  constructor
  · rintro ⟨pr, hmem, hpr⟩
    exact ⟨pr, hmem, (contradiction_check_iff _ pr).mp hpr⟩
  · rintro ⟨pr, hmem, hex⟩
    exact ⟨pr, hmem, (contradiction_check_iff _ pr).mpr hex⟩

/-- Witness for `C6_amended`: the text `"Yes, but also no."` does trigger the
deduction, through the first occurrences of `"yes"` and `"no"`. -/
theorem C6_amended_witness :
    ∃ pr ∈ contradiction_pairs, ∃ i j,
      findSub (lowerStr (str "Yes, but also no.")) pr.1 = some i ∧
      findSub (lowerStr (str "Yes, but also no.")) pr.2 = some j ∧
      Nat.dist i j < 200 :=
  (C6_amended (str "Yes, but also no.")).mp (by decide)

/-- Claim C5: for a source with a credible (non-empty, non-blacklisted)
domain and a non-empty extracted keyword set, the relevance filter scores
`min(1, matches / max(0.5 * keyword_count, 1))`; with zero matches it
rejects, naming the first three (all missing) keywords; with at least one
match and a score below `0.2` it still accepts, flagging the low-confidence
warning reason. -/
theorem C5_keyword_scoring (query : Str) (s : Source)
    (hcred : is_credible_domain (source_domain s) = true)
    (hk : extract_keywords query ≠ []) :
    (validate_source (extract_keywords query) s).2.1 =
      min 1 ((keyword_matches (extract_keywords query) s : ℚ) /
        max (((extract_keywords query).length : ℚ) * (1/2)) 1) ∧
    (keyword_matches (extract_keywords query) s = 0 →
      validate_source (extract_keywords query) s =
        (false,
         min 1 ((keyword_matches (extract_keywords query) s : ℚ) /
           max (((extract_keywords query).length : ℚ) * (1/2)) 1),
         VReason.noKeywords ((extract_keywords query).take 3))) ∧
    (keyword_matches (extract_keywords query) s ≠ 0 →
      min 1 ((keyword_matches (extract_keywords query) s : ℚ) /
        max (((extract_keywords query).length : ℚ) * (1/2)) 1) < 1/5 →
      validate_source (extract_keywords query) s =
        (true,
         min 1 ((keyword_matches (extract_keywords query) s : ℚ) /
           max (((extract_keywords query).length : ℚ) * (1/2)) 1),
         VReason.lowMatch (keyword_matches (extract_keywords query) s)
           (extract_keywords query).length)) := by
  set kws := extract_keywords query with hkws
  have hlen : ¬ kws.length = 0 := fun h => hk (List.length_eq_zero.mp h)
  have hsc : relevance_score kws s =
      min 1 ((keyword_matches kws s : ℚ) / max ((kws.length : ℚ) * (1/2)) 1) := by
    unfold relevance_score
    rw [if_neg hlen]
  refine ⟨?_, ?_, ?_⟩
  · simp only [validate_source, hcred, Bool.true_eq_false, if_false]
    split_ifs <;> simp [hsc]
  · intro hm
    simp only [validate_source, hcred, Bool.true_eq_false, if_false]
    rw [if_pos hm, hsc]
  · intro hm hlow
    simp only [validate_source, hcred, Bool.true_eq_false, if_false]
    rw [if_neg hm, if_pos (by rw [hsc]; exact hlow), hsc]

/-- Witness for `C5_keyword_scoring` at a concrete credible source and the
query `"quantum computing"`. -/
theorem C5_witness :
    (validate_source (extract_keywords (str "quantum computing")) neutral_source).2.1 =
      min 1 ((keyword_matches (extract_keywords (str "quantum computing")) neutral_source : ℚ) /
        max (((extract_keywords (str "quantum computing")).length : ℚ) * (1/2)) 1) ∧
    (keyword_matches (extract_keywords (str "quantum computing")) neutral_source = 0 →
      validate_source (extract_keywords (str "quantum computing")) neutral_source =
        (false,
         min 1 ((keyword_matches (extract_keywords (str "quantum computing")) neutral_source : ℚ) /
           max (((extract_keywords (str "quantum computing")).length : ℚ) * (1/2)) 1),
         VReason.noKeywords ((extract_keywords (str "quantum computing")).take 3))) ∧
    (keyword_matches (extract_keywords (str "quantum computing")) neutral_source ≠ 0 →
      min 1 ((keyword_matches (extract_keywords (str "quantum computing")) neutral_source : ℚ) /
        max (((extract_keywords (str "quantum computing")).length : ℚ) * (1/2)) 1) < 1/5 →
      validate_source (extract_keywords (str "quantum computing")) neutral_source =
        (true,
         min 1 ((keyword_matches (extract_keywords (str "quantum computing")) neutral_source : ℚ) /
           max (((extract_keywords (str "quantum computing")).length : ℚ) * (1/2)) 1),
         VReason.lowMatch (keyword_matches (extract_keywords (str "quantum computing")) neutral_source)
           (extract_keywords (str "quantum computing")).length)) :=
  C5_keyword_scoring (str "quantum computing") neutral_source (by decide) (by decide)

set_option maxHeartbeats 1600000 in
/-- Claim C4: `validate_reasoning` starts from score `1.0`, subtracts the
fixed penalties `0.3` (length below 200), `0.4` (zero citations), `0.2`
(citations present but below 30% of the source count), `0.2` (more than 3
hedging occurrences), `0.25` (contradiction), `0.15` (no structure marker),
`0.1` (no conclusion keyword), clamps to `[0, 1]`, and is valid iff the
score is at least `0.5` and there are at most 2 issues; in particular a
text shorter than 200 characters with zero citations scores at most `0.3`
and is invalid. -/
theorem C4_reasoning_scoring (findings : Str) (sources : List Source) :
    (validate_reasoning findings sources).2.1 =
      max 0 (min 1 ((1 : ℚ)
        - (if findings.length < 200 then 3/10 else 0)
        - (if count_source_citations findings = 0 then 4/10
           else if (count_source_citations findings : ℚ) <
               (sources.length : ℚ) * (3/10) then 2/10 else 0)
        - (if 3 < shallow_count findings then 2/10 else 0)
        - (if has_contradictions findings then 1/4 else 0)
        - (if has_structure findings then 0 else 3/20)
        - (if has_conclusion findings then 0 else 1/10))) ∧
    ((validate_reasoning findings sources).1 = true ↔
      1/2 ≤ (validate_reasoning findings sources).2.1 ∧
      (validate_reasoning findings sources).2.2.length ≤ 2) ∧
    (findings.length < 200 → count_source_citations findings = 0 →
      (validate_reasoning findings sources).2.1 ≤ 3/10 ∧
      (validate_reasoning findings sources).1 = false) := by
  have hA : (validate_reasoning findings sources).2.1 =
      max 0 (min 1 ((1 : ℚ)
        - (if findings.length < 200 then 3/10 else 0)
        - (if count_source_citations findings = 0 then 4/10
           else if (count_source_citations findings : ℚ) <
               (sources.length : ℚ) * (3/10) then 2/10 else 0)
        - (if 3 < shallow_count findings then 2/10 else 0)
        - (if has_contradictions findings then 1/4 else 0)
        - (if has_structure findings then 0 else 3/20)
        - (if has_conclusion findings then 0 else 1/10))) := by
    unfold validate_reasoning
    by_cases h1 : findings.length < 200 <;>
    by_cases h2 : count_source_citations findings = 0 <;>
    by_cases h3 : (count_source_citations findings : ℚ) <
      (sources.length : ℚ) * (3/10) <;>
    by_cases h4 : 3 < shallow_count findings <;>
    by_cases h5 : has_contradictions findings = true <;>
    by_cases h6 : has_structure findings = true <;>
    by_cases h7 : has_conclusion findings = true <;>
    simp only [h1, h2, h3, h4, h5, h6, h7, if_true, if_false, ite_true, ite_false,
      eq_self_iff_true, not_true, not_false_iff] <;>
    norm_num
  have hB : (validate_reasoning findings sources).1 = true ↔
      1/2 ≤ (validate_reasoning findings sources).2.1 ∧
      (validate_reasoning findings sources).2.2.length ≤ 2 := by
    unfold validate_reasoning
    simp only [Bool.and_eq_true, decide_eq_true_eq]
  refine ⟨hA, hB, ?_⟩
  intro h1 h2
  have hr3 : (0:ℚ) ≤ if 3 < shallow_count findings then 2/10 else 0 := by
    split_ifs <;> norm_num
  have hr4 : (0:ℚ) ≤ if has_contradictions findings then 1/4 else 0 := by
    split_ifs <;> norm_num
  have hr5 : (0:ℚ) ≤ if has_structure findings then 0 else 3/20 := by
    split_ifs <;> norm_num
  have hr6 : (0:ℚ) ≤ if has_conclusion findings then 0 else 1/10 := by
    split_ifs <;> norm_num
  have hpen : (validate_reasoning findings sources).2.1 ≤ 3/10 := by
    rw [hA, if_pos h1, if_pos h2]
    refine max_le (by norm_num) (le_trans (min_le_right _ _) (by linarith))
  refine ⟨hpen, ?_⟩
  cases hb : (validate_reasoning findings sources).1 with
  | false => rfl
  | true =>
    have hge := (hB.mp hb).1
    have : (1:ℚ)/2 ≤ 3/10 := le_trans hge hpen
    norm_num at this

/-- Witness for `C4_reasoning_scoring`: the empty findings text is shorter
than 200 characters and has zero citations, so it scores at most `0.3` and
is invalid. -/
theorem C4_witness :
    (validate_reasoning [] []).2.1 ≤ 3/10 ∧ (validate_reasoning [] []).1 = false :=
  (C4_reasoning_scoring [] []).2.2 (by decide) rfl
